import Mathlib

/-!
Verification of the jsonware middleware (json.go) against its specification.

The Go source is shallowly embedded: reflected types become `GoTy`/`FnTy`,
the registration function `Handler` becomes a total function into
`Except String JSONHandlerT` (a Go panic is `Except.error` carrying the panic
message), and the per-request dispatcher `ServeHTTP` becomes a state-passing
function producing a `ServeResult` that records the response, whether the
request body was closed, whether body decoding was attempted, whether the
wrapped function was invoked, and what was written to which logging sink.
-/

namespace Jsonware

/-- Reflected Go type kinds, covering the kinds the source inspects
(`reflect.Func`, `reflect.Ptr`, `reflect.Map`, `reflect.Slice`) plus enough
other kinds to represent concrete handler signatures and invalid inputs. -/
inductive TKind
  | func
  | ptr
  | slice
  | map
  | iface
  | intT
  | structT
  | chanT
deriving DecidableEq

/-- A reflected Go type: its kind and the string `reflect.Type.String()`
returns for it. The source only ever inspects these two facets of a
parameter or return type. -/
structure GoTy where
  kind : TKind
  tstr : String
deriving DecidableEq

/-- A reflected function type (`reflect.TypeOf(fn)`): top-level kind, input
parameter types (`In`), and return types (`Out`). A non-function value has
its own kind and empty parameter lists. -/
structure FnTy where
  kind : TKind
  inTys : List GoTy
  outTys : List GoTy
deriving DecidableEq

/-- The validated handler record built by `Handler`: the function's reflected
type (field `fn` keeps its `reflect.Value`, of which only the type matters
here) and the third-parameter type `in` (absent for 2-parameter handlers,
where the Go code leaves it as the nil `reflect.Type`). -/
structure JSONHandlerT where
  fnTy : FnTy
  inTy : Option GoTy
deriving DecidableEq

/-- `p3.Kind() == reflect.Ptr || Map || Slice`, the shape test the source
applies to the third parameter and (together with `interface \x7b\x7d`) to the
first return type. -/
def isPayloadKind (k : TKind) : Bool :=
  k = TKind.ptr || k = TKind.map || k = TKind.slice

/-- Return-type checks of `Handler` (`NumOut`, `Out(0)`, `Out(1)`), reached
after the parameter checks succeed; `p3` is the third parameter type when
present. Matching on the out-list is the `typ.NumOut() != 2` test. -/
def checkOuts (typ : FnTy) (p3 : Option GoTy) : Except String JSONHandlerT :=
  match typ.outTys with
  | [o1, o2] =>
    if o1.tstr ≠ "interface \x7b\x7d" ∧ ¬ (isPayloadKind o1.kind = true) then
      Except.error "First return must be an empty *object, map, slice or interface\x7b\x7d"
    else if o2.tstr ≠ "error" then
      Except.error "Second return must be an error"
    else
      Except.ok { fnTy := typ, inTy := p3 }
  | _ => Except.error "Handler must have two returns: *object or interface\x7b\x7d, and error"

/-- Parameter-1/2 checks of `Handler` (the body of `case 2`, also reached
from `case 3` by fallthrough), followed by the return checks. -/
def checkParams (typ : FnTy) (p1 p2 : GoTy) (p3 : Option GoTy) : Except String JSONHandlerT :=
  if p1.tstr ≠ "http.ResponseWriter" then
    Except.error "First argument must be an http.ResponseWriter"
  else if p2.tstr ≠ "*http.Request" then
    Except.error "Second argument must be a *http.Request"
  else checkOuts typ p3

/-- The registration function `Handler` of json.go. `Except.error msg` models
`panic(msg)`. The `switch typ.NumIn()` with its `case 3` → `case 2`
fallthrough becomes a match on the input-type list: at arity 3 the third
parameter's kind is checked first, then the shared parameter checks run. -/
def Handler (typ : FnTy) : Except String JSONHandlerT :=
  if typ.kind ≠ TKind.func then
    Except.error "Can only register functions."
  else
    match typ.inTys with
    | [p1, p2, p3] =>
      if ¬ (isPayloadKind p3.kind = true) then
        Except.error "Third argument must be an *object, map, or slice"
      else
        checkParams typ p1 p2 (some p3)
    | [p1, p2] => checkParams typ p1 p2 none
    | _ => Except.error "Handler must have 2-3 arguments: ResponseWriter, Request, [Object]"

/-- Spec-side predicate (follows the wording of the claim, to be compared
with the source-side `Handler`): the value is a function, has 2 or 3
parameters, parameter 1 is `http.ResponseWriter`, parameter 2 is
`*http.Request`, at arity 3 parameter 3 is a pointer, slice or map, there
are exactly 2 returns, return 1 is `interface \x7b\x7d` or a pointer, slice or
map, and return 2 is `error`. -/
def acceptedShape (typ : FnTy) : Bool :=
  typ.kind = TKind.func &&
  (match typ.inTys with
   | [p1, p2] => p1.tstr = "http.ResponseWriter" && p2.tstr = "*http.Request"
   | [p1, p2, p3] =>
     p1.tstr = "http.ResponseWriter" && p2.tstr = "*http.Request" && isPayloadKind p3.kind
   | _ => false) &&
  (match typ.outTys with
   | [o1, o2] => (o1.tstr = "interface \x7b\x7d" || isPayloadKind o1.kind) && o2.tstr = "error"
   | _ => false)

/-- `http.ResponseWriter` as a reflected type. -/
def tyResponseWriter : GoTy := { kind := TKind.iface, tstr := "http.ResponseWriter" }

/-- `*http.Request` as a reflected type. -/
def tyRequestPtr : GoTy := { kind := TKind.ptr, tstr := "*http.Request" }

/-- The empty interface `interface \x7b\x7d` as a reflected type. -/
def tyEmptyIface : GoTy := { kind := TKind.iface, tstr := "interface \x7b\x7d" }

/-- `error` as a reflected type. -/
def tyError : GoTy := { kind := TKind.iface, tstr := "error" }

/-- `int` as a reflected type. -/
def tyInt : GoTy := { kind := TKind.intT, tstr := "int" }

/-- `*jsonware.testType`, the pointer payload type used by the tests. -/
def tyPtrTestType : GoTy := { kind := TKind.ptr, tstr := "*jsonware.testType" }

/-- `jsonware.testType` by value, a struct kind: an invalid third parameter. -/
def tyStructTestType : GoTy := { kind := TKind.structT, tstr := "jsonware.testType" }

/-- The reflected type of `testHandler1`:
`func(http.ResponseWriter, *http.Request, *testType) (interface \x7b\x7d, error)`. -/
def tyHandler3 : FnTy :=
  { kind := TKind.func
    inTys := [tyResponseWriter, tyRequestPtr, tyPtrTestType]
    outTys := [tyEmptyIface, tyError] }

/-- The reflected type of a 2-parameter handler such as `testHandler2`. -/
def tyHandler2 : FnTy :=
  { kind := TKind.func
    inTys := [tyResponseWriter, tyRequestPtr]
    outTys := [tyEmptyIface, tyError] }

/-- A Go value as seen by `encoding/json`: JSON-marshalable values (object
fields listed in the order `json.Marshal` emits them, i.e. struct order, or
sorted key order for maps), or a value `json.Marshal` rejects, such as a
channel or function value. -/
inductive GoVal
  | jnull
  | jbool (b : Bool)
  | jint (n : Int)
  | jstr (s : String)
  | jarr (elems : List GoVal)
  | jobj (fields : List (String × GoVal))
  | unencodable

/-- One hexadecimal digit, lowercase, as used in `\u00XX` escapes. -/
def hexDigit (n : Nat) : Char :=
  if n < 10 then Char.ofNat (48 + n) else Char.ofNat (87 + n)

/-- Escaping of one character as performed by `encoding/json` with the
default HTML escaping of `json.Encoder`. -/
def escapeChar (c : Char) : String :=
  if c = '"' then "\\\""
  else if c = '\\' then "\\\\"
  else if c = '\n' then "\\n"
  else if c = '\r' then "\\r"
  else if c = '\t' then "\\t"
  else if c = '<' then "\\u003c"
  else if c = '>' then "\\u003e"
  else if c = '&' then "\\u0026"
  else if c.toNat < 32 then
    "\\u00" ++ String.singleton (hexDigit (c.toNat / 16)) ++
      String.singleton (hexDigit (c.toNat % 16))
  else String.singleton c

/-- JSON string literal encoding, `encoding/json` style. -/
def encodeJString (s : String) : String :=
  "\"" ++ String.join (s.toList.map escapeChar) ++ "\""

mutual

/-- `json.Marshal` on a Go value: `none` models a marshal error
(unsupported type). -/
def encodeGoVal : GoVal → Option String
  | GoVal.jnull => some "null"
  | GoVal.jbool true => some "true"
  | GoVal.jbool false => some "false"
  | GoVal.jint n => some (toString n)
  | GoVal.jstr s => some (encodeJString s)
  | GoVal.jarr xs => (encodeItems xs).map (fun s => "[" ++ s ++ "]")
  | GoVal.jobj fs => (encodeFields fs).map (fun s => "\x7b" ++ s ++ "\x7d")
  | GoVal.unencodable => none

/-- Comma-separated marshaling of array elements. -/
def encodeItems : List GoVal → Option String
  | [] => some ""
  | [x] => encodeGoVal x
  | x :: y :: rest => do
    let sx ← encodeGoVal x
    let srest ← encodeItems (y :: rest)
    pure (sx ++ "," ++ srest)

/-- Comma-separated marshaling of object fields. -/
def encodeFields : List (String × GoVal) → Option String
  | [] => some ""
  | [(k, v)] => (encodeGoVal v).map (fun sv => encodeJString k ++ ":" ++ sv)
  | (k, v) :: f :: rest => do
    let sv ← encodeGoVal v
    let srest ← encodeFields (f :: rest)
    pure (encodeJString k ++ ":" ++ sv ++ "," ++ srest)

end

/-- The observable state of an `http.ResponseWriter`: the Content-Type
header, the status code passed to the first `WriteHeader` call (none if
never called; net/http then sends 200 on the first body write), and the
accumulated body bytes. -/
structure RespState where
  contentType : Option String
  status : Option Nat
  body : String
deriving DecidableEq

/-- The status code actually sent on the wire: the explicitly written one,
or net/http's implicit 200. -/
def RespState.effStatus (w : RespState) : Nat := w.status.getD 200

/-- `w.Header().Set("Content-Type", ct)`. -/
def setContentType (w : RespState) (ct : String) : RespState :=
  { w with contentType := some ct }

/-- `w.WriteHeader(code)`: only the first call takes effect. -/
def writeHeader (w : RespState) (code : Nat) : RespState :=
  match w.status with
  | some _ => w
  | none => { w with status := some code }

/-- Writing body bytes (`io.WriteString`, `io.Copy`, encoder output). -/
def writeBody (w : RespState) (s : String) : RespState :=
  { w with body := w.body ++ s }

/-- An error value flowing into `writeError`: either the package's `Err`
struct (explicit status, message of the wrapped error, optional reason), or
any other `error` (a cloaked error), of which only the message matters. -/
inductive GoError
  | jsonErr (status : Nat) (msg : String) (reason : Option GoVal)
  | cloaked (msg : String)

/-- Identifies which logging sink received a diagnostic line. -/
inductive SinkId
  | descriptor
  | global
deriving DecidableEq

/-- The `logit` closure of `writeError`: write to the handler's own logger
if set, else to the package-global logger if set, else drop. The two
booleans record which sinks are configured. -/
def logit (hasLogger hasGlobal : Bool) (msg : String) : Option (SinkId × String) :=
  if hasLogger then some (SinkId.descriptor, msg)
  else if hasGlobal then some (SinkId.global, msg)
  else none

/-- Result of `writeError`: the updated response state and what, if
anything, was logged to which sink. -/
structure WriteErrorResult where
  resp : RespState
  logged : Option (SinkId × String)
deriving DecidableEq

/-- The fixed fallback body written by `writeError` for cloaked errors and
for serialization failures of the error object. -/
def fallbackBody : String := "\x7b\"error\":\"an internal server error occurred\"\x7d"

/-- `json.Encoder.Encode` applied to the `toJSON` map of `writeError`:
`map[string]interface\x7b\x7d` marshals its keys in sorted order, and
`"error"` sorts before `"reason"`; `Encode` appends a newline. `none`
models the marshal error raised by an unserializable `Reason`. -/
def encodeErrObj (msg : String) (reason : Option GoVal) : Option String :=
  match reason with
  | none => some ("\x7b\"error\":" ++ encodeJString msg ++ "\x7d\n")
  | some r =>
    match encodeGoVal r with
    | none => none
    | some rs =>
      some ("\x7b\"error\":" ++ encodeJString msg ++ ",\"reason\":" ++ rs ++ "\x7d\n")

/-- The `writeError` function of json.go. The type switch on `err` becomes a
match on `GoError`; the `case Err` branch builds the error object, falls
back to status 500 with `fallbackBody` if it cannot be serialized, and
otherwise writes the explicit status (if non-zero) followed by the object;
the `default` branch logs the message and writes 500 with `fallbackBody`. -/
def writeError (w : RespState) (hasLogger hasGlobal : Bool) (err : GoError) : WriteErrorResult :=
  match err with
  | GoError.jsonErr status msg reason =>
    match encodeErrObj msg reason with
    | none =>
      { resp := writeBody (writeHeader w 500) fallbackBody
        logged := logit hasLogger hasGlobal "failed to serialize err" }
    | some bodyStr =>
      let w1 := if status ≠ 0 then writeHeader w status else w
      { resp := writeBody w1 bodyStr, logged := none }
  | GoError.cloaked msg =>
    { resp := writeBody (writeHeader w 500) fallbackBody
      logged := logit hasLogger hasGlobal ("internal error: " ++ msg) }

/-- `method != "GET" && method != "DELETE"`, the data-method classifier. -/
def isDataMethod (method : String) : Bool :=
  method != "GET" && method != "DELETE"

/-- Substring test on character lists, the semantics of Go's
`strings.Contains`. -/
def hasSubstring : List Char → List Char → Bool
  | [], pat => pat.isEmpty
  | hay@(_ :: t), pat => pat.isPrefixOf hay || hasSubstring t pat

/-- `strings.Contains(s, pat)`. -/
def strContains (s pat : String) : Bool :=
  hasSubstring s.toList pat.toList

/-- An incoming request as the dispatcher sees it: the method, the raw
`Accept` header (empty string when absent), and the body bytes. -/
structure Request where
  method : String
  accept : String
  body : String
deriving DecidableEq

/-- Observable outcome of one dispatch: the final response state, whether
`r.Body.Close()` was called, whether body decoding was attempted, whether
the wrapped function was invoked, and what was logged. -/
structure ServeResult where
  resp : RespState
  bodyClosed : Bool
  decodeTried : Bool
  handlerCalled : Bool
  logged : Option (SinkId × String)
deriving DecidableEq

/-- Lines 151-169 of json.go: call the wrapped function (modelled as a pure
function of the request and the optional decoded payload; direct writes by
the handler to the writer are outside this model), then classify: a non-nil
second return goes to `writeError`; otherwise a non-nil first return is
JSON-encoded to the response (with the 500 "problem preparing response"
error on encoding failure), and a nil first return writes nothing. -/
def invokeAndRespond (hasLogger hasGlobal : Bool) (w : RespState)
    (fn : Request → Option GoVal → Option GoVal × Option GoError)
    (r : Request) (payload : Option GoVal) (closed tried : Bool) : ServeResult :=
  let out := fn r payload
  match out.2 with
  | some e =>
    let wr := writeError w hasLogger hasGlobal e
    { resp := wr.resp, bodyClosed := closed, decodeTried := tried
      handlerCalled := true, logged := wr.logged }
  | none =>
    match out.1 with
    | none =>
      { resp := w, bodyClosed := closed, decodeTried := tried
        handlerCalled := true, logged := none }
    | some v =>
      match encodeGoVal v with
      | some s =>
        { resp := writeBody w (s ++ "\n"), bodyClosed := closed, decodeTried := tried
          handlerCalled := true, logged := none }
      | none =>
        let wr := writeError w hasLogger hasGlobal
          (GoError.jsonErr 500 "problem preparing response" none)
        { resp := wr.resp, bodyClosed := closed, decodeTried := tried
          handlerCalled := true, logged := wr.logged }

/-- The response state right after content negotiation succeeds:
Content-Type set to application/json, nothing written yet. -/
def jsonInitResp : RespState :=
  { contentType := some "application/json", status := none, body := "" }

/-- Lines 108-169 of json.go, after content negotiation has passed:
method/shape pairing check, then (for 3-parameter handlers) JSON decoding of
the body via the decoder oracle `dec` — on decode error the 400
"could not deserialize json request body" response is written and the body
is NOT closed (the early return precedes `r.Body.Close()`); on success the
body is closed and the function invoked with the decoded payload. -/
def serveAfterNegotiation (hasLogger hasGlobal : Bool) (j : JSONHandlerT)
    (fn : Request → Option GoVal → Option GoVal × Option GoError)
    (dec : Option GoTy → String → Except String GoVal)
    (r : Request) : ServeResult :=
  let deserialize := j.fnTy.inTys.length == 3
  if (deserialize && !(isDataMethod r.method)) || (!deserialize && isDataMethod r.method) then
    let wr := writeError jsonInitResp hasLogger hasGlobal
      (GoError.jsonErr 400 ("invalid http method to this endpoint: " ++ r.method) none)
    { resp := wr.resp, bodyClosed := false, decodeTried := false
      handlerCalled := false, logged := wr.logged }
  else if deserialize then
    match dec j.inTy r.body with
    | Except.error _ =>
      let wr := writeError jsonInitResp hasLogger hasGlobal
        (GoError.jsonErr 400 "could not deserialize json request body" none)
      { resp := wr.resp, bodyClosed := false, decodeTried := true
        handlerCalled := false, logged := wr.logged }
    | Except.ok payload =>
      invokeAndRespond hasLogger hasGlobal jsonInitResp fn r (some payload) true true
  else
    invokeAndRespond hasLogger hasGlobal jsonInitResp fn r none false false

/-- The `ServeHTTP` method of json.go. Content negotiation: if the Accept
header contains neither "*/*" nor "application/json" as a substring, the
plain-text 400 rejection is written and nothing else happens; otherwise the
Content-Type is set to application/json and dispatch continues. -/
def ServeHTTP (hasLogger hasGlobal : Bool) (j : JSONHandlerT)
    (fn : Request → Option GoVal → Option GoVal × Option GoError)
    (dec : Option GoTy → String → Except String GoVal)
    (r : Request) : ServeResult :=
  let w0 : RespState := { contentType := none, status := none, body := "" }
  if !(strContains r.accept "*/*") && !(strContains r.accept "application/json") then
    { resp := writeBody (writeHeader (setContentType w0 "text/plain") 400)
        "this endpoint only responds to json-accepting clients"
      bodyClosed := false, decodeTried := false, handlerCalled := false, logged := none }
  else
    serveAfterNegotiation hasLogger hasGlobal j fn dec r

theorem handler_ok_iff (typ : FnTy) :
    (∃ h, Handler typ = Except.ok h) ↔ acceptedShape typ = true := by
  obtain ⟨k, ins, outs⟩ := typ
  by_cases hk : k = TKind.func
  · subst hk
    rcases ins with _ | ⟨p1, _ | ⟨p2, _ | ⟨p3, _ | ⟨p4, rest⟩⟩⟩⟩
    · simp [Handler, acceptedShape]
    · simp [Handler, acceptedShape]
    · rcases outs with _ | ⟨o1, _ | ⟨o2, _ | ⟨o3, outrest⟩⟩⟩ <;>
        · simp only [Handler, checkParams, checkOuts, acceptedShape]
          split_ifs <;> simp_all [isPayloadKind] <;> tauto
    · rcases outs with _ | ⟨o1, _ | ⟨o2, _ | ⟨o3, outrest⟩⟩⟩ <;>
        · simp only [Handler, checkParams, checkOuts, acceptedShape]
          split_ifs <;> simp_all [isPayloadKind] <;> tauto
    · simp [Handler, acceptedShape]
  · simp [Handler, acceptedShape, hk]

theorem handler_rest_ok_cases (p1 p2 : GoTy) (rest outs : List GoTy)
    (hrest : rest = [] ∨ ∃ p3, rest = [p3] ∧ isPayloadKind p3.kind = true) :
    Handler { kind := TKind.func, inTys := p1 :: p2 :: rest, outTys := outs } =
      checkParams { kind := TKind.func, inTys := p1 :: p2 :: rest, outTys := outs } p1 p2
        (rest.head?) := by
  rcases hrest with h | ⟨p3, h, hp3⟩
  · subst h
    simp [Handler]
  · subst h
    simp [Handler, hp3]

/-- Claim C1: every value violating the registration contract (not a
function; arity not 2 or 3; parameter 1 not `http.ResponseWriter`;
parameter 2 not `*http.Request`; at arity 3, parameter 3 not a pointer,
slice or map; not exactly 2 returns; return 1 not `interface \x7b\x7d`,
pointer, slice or map; return 2 not `error`) makes `Handler` abort with a
diagnostic specific to that violation, the eight diagnostics are pairwise
distinct, and `Handler` succeeds exactly on the accepted shapes. -/
theorem c1_registration_validation :
    (∀ typ : FnTy, (∃ h, Handler typ = Except.ok h) ↔ acceptedShape typ = true)
    ∧ (∀ typ : FnTy, typ.kind ≠ TKind.func →
        Handler typ = Except.error "Can only register functions.")
    ∧ (∀ typ : FnTy, typ.kind = TKind.func →
        typ.inTys.length ≠ 2 → typ.inTys.length ≠ 3 →
        Handler typ = Except.error
          "Handler must have 2-3 arguments: ResponseWriter, Request, [Object]")
    ∧ (∀ p1 p2 p3 : GoTy, ∀ outs : List GoTy, isPayloadKind p3.kind = false →
        Handler { kind := TKind.func, inTys := [p1, p2, p3], outTys := outs } =
          Except.error "Third argument must be an *object, map, or slice")
    ∧ (∀ p1 p2 : GoTy, ∀ rest outs : List GoTy,
        (rest = [] ∨ ∃ p3, rest = [p3] ∧ isPayloadKind p3.kind = true) →
        p1.tstr ≠ "http.ResponseWriter" →
        Handler { kind := TKind.func, inTys := p1 :: p2 :: rest, outTys := outs } =
          Except.error "First argument must be an http.ResponseWriter")
    ∧ (∀ p1 p2 : GoTy, ∀ rest outs : List GoTy,
        (rest = [] ∨ ∃ p3, rest = [p3] ∧ isPayloadKind p3.kind = true) →
        p1.tstr = "http.ResponseWriter" → p2.tstr ≠ "*http.Request" →
        Handler { kind := TKind.func, inTys := p1 :: p2 :: rest, outTys := outs } =
          Except.error "Second argument must be a *http.Request")
    ∧ (∀ p1 p2 : GoTy, ∀ rest outs : List GoTy,
        (rest = [] ∨ ∃ p3, rest = [p3] ∧ isPayloadKind p3.kind = true) →
        p1.tstr = "http.ResponseWriter" → p2.tstr = "*http.Request" →
        outs.length ≠ 2 →
        Handler { kind := TKind.func, inTys := p1 :: p2 :: rest, outTys := outs } =
          Except.error "Handler must have two returns: *object or interface\x7b\x7d, and error")
    ∧ (∀ p1 p2 o1 o2 : GoTy, ∀ rest : List GoTy,
        (rest = [] ∨ ∃ p3, rest = [p3] ∧ isPayloadKind p3.kind = true) →
        p1.tstr = "http.ResponseWriter" → p2.tstr = "*http.Request" →
        o1.tstr ≠ "interface \x7b\x7d" → isPayloadKind o1.kind = false →
        Handler { kind := TKind.func, inTys := p1 :: p2 :: rest, outTys := [o1, o2] } =
          Except.error "First return must be an empty *object, map, slice or interface\x7b\x7d")
    ∧ (∀ p1 p2 o1 o2 : GoTy, ∀ rest : List GoTy,
        (rest = [] ∨ ∃ p3, rest = [p3] ∧ isPayloadKind p3.kind = true) →
        p1.tstr = "http.ResponseWriter" → p2.tstr = "*http.Request" →
        (o1.tstr = "interface \x7b\x7d" ∨ isPayloadKind o1.kind = true) →
        o2.tstr ≠ "error" →
        Handler { kind := TKind.func, inTys := p1 :: p2 :: rest, outTys := [o1, o2] } =
          Except.error "Second return must be an error")
    ∧ List.Nodup
        ["Can only register functions.",
         "Handler must have 2-3 arguments: ResponseWriter, Request, [Object]",
         "Third argument must be an *object, map, or slice",
         "First argument must be an http.ResponseWriter",
         "Second argument must be a *http.Request",
         "Handler must have two returns: *object or interface\x7b\x7d, and error",
         "First return must be an empty *object, map, slice or interface\x7b\x7d",
         "Second return must be an error"] := by
  refine ⟨handler_ok_iff, ?_, ?_, ?_, ?_, ?_, ?_, ?_, ?_, by decide⟩
  · intro typ hk
    simp [Handler, hk]
  · intro typ hk h2 h3
    obtain ⟨k, ins, outs⟩ := typ
    subst hk
    rcases ins with _ | ⟨p1, _ | ⟨p2, _ | ⟨p3, _ | ⟨p4, rest⟩⟩⟩⟩ <;> simp_all [Handler]
  · intro p1 p2 p3 outs hp3
    simp [Handler, hp3]
  · intro p1 p2 rest outs hrest h1
    rw [handler_rest_ok_cases p1 p2 rest outs hrest]
    simp [checkParams, h1]
  · intro p1 p2 rest outs hrest h1 h2
    rw [handler_rest_ok_cases p1 p2 rest outs hrest]
    simp [checkParams, h1, h2]
  · intro p1 p2 rest outs hrest h1 h2 hlen
    rw [handler_rest_ok_cases p1 p2 rest outs hrest]
    rcases outs with _ | ⟨o1, _ | ⟨o2, _ | ⟨o3, outrest⟩⟩⟩ <;>
      simp_all [checkParams, checkOuts]
  · intro p1 p2 o1 o2 rest hrest h1 h2 ho1 ho1k
    rw [handler_rest_ok_cases p1 p2 rest [o1, o2] hrest]
    simp [checkParams, checkOuts, h1, h2, ho1, ho1k]
  · intro p1 p2 o1 o2 rest hrest h1 h2 ho1 ho2
    rw [handler_rest_ok_cases p1 p2 rest [o1, o2] hrest]
    rcases ho1 with ho1 | ho1 <;> simp [checkParams, checkOuts, h1, h2, ho1, ho2]

/-- Witness for C1: `Handler` accepts the concrete valid 3-parameter
handler signature of `testHandler1`. -/
theorem c1_witness : ∃ h, Handler tyHandler3 = Except.ok h :=
  (c1_registration_validation.1 tyHandler3).mpr (by decide)

theorem serve_negotiation_pass (hl hg : Bool) (j : JSONHandlerT)
    (fn : Request → Option GoVal → Option GoVal × Option GoError)
    (dec : Option GoTy → String → Except String GoVal) (r : Request)
    (hacc : strContains r.accept "*/*" = true ∨ strContains r.accept "application/json" = true) :
    ServeHTTP hl hg j fn dec r = serveAfterNegotiation hl hg j fn dec r := by
  have h : (!(strContains r.accept "*/*") && !(strContains r.accept "application/json")) = false := by
    rcases hacc with h | h <;> simp [h]
  simp [ServeHTTP, h]

theorem serve_mismatch (hl hg : Bool) (j : JSONHandlerT)
    (fn : Request → Option GoVal → Option GoVal × Option GoError)
    (dec : Option GoTy → String → Except String GoVal) (r : Request)
    (hpair : (j.fnTy.inTys.length = 3 ∧ isDataMethod r.method = false)
           ∨ (j.fnTy.inTys.length ≠ 3 ∧ isDataMethod r.method = true)) :
    serveAfterNegotiation hl hg j fn dec r =
      { resp := { contentType := some "application/json", status := some 400
                  body := "\x7b\"error\":" ++
                    encodeJString ("invalid http method to this endpoint: " ++ r.method) ++ "\x7d\n" }
        bodyClosed := false, decodeTried := false, handlerCalled := false, logged := none } := by
  have hcond : ((j.fnTy.inTys.length == 3) && !(isDataMethod r.method)
      || !(j.fnTy.inTys.length == 3) && isDataMethod r.method) = true := by
    rcases hpair with ⟨h1, h2⟩ | ⟨h1, h2⟩
    · simp [h1, h2]
    · have hb : (j.fnTy.inTys.length == 3) = false :=
        Bool.eq_false_iff.mpr (fun hb => h1 (by simpa using hb))
      simp [hb, h2]
  simp [serveAfterNegotiation, hcond, writeError, encodeErrObj, writeHeader, writeBody,
    jsonInitResp]

theorem serve_route_nonpayload (hl hg : Bool) (j : JSONHandlerT)
    (fn : Request → Option GoVal → Option GoVal × Option GoError)
    (dec : Option GoTy → String → Except String GoVal) (r : Request)
    (hlen : j.fnTy.inTys.length = 2) (hm : isDataMethod r.method = false) :
    serveAfterNegotiation hl hg j fn dec r =
      invokeAndRespond hl hg jsonInitResp fn r none false false := by
  simp [serveAfterNegotiation, hlen, hm]

theorem serve_route_payload (hl hg : Bool) (j : JSONHandlerT)
    (fn : Request → Option GoVal → Option GoVal × Option GoError)
    (dec : Option GoTy → String → Except String GoVal) (r : Request) (v : GoVal)
    (hlen : j.fnTy.inTys.length = 3) (hm : isDataMethod r.method = true)
    (hdec : dec j.inTy r.body = Except.ok v) :
    serveAfterNegotiation hl hg j fn dec r =
      invokeAndRespond hl hg jsonInitResp fn r (some v) true true := by
  simp [serveAfterNegotiation, hlen, hm, hdec]

theorem serve_decode_fail (hl hg : Bool) (j : JSONHandlerT)
    (fn : Request → Option GoVal → Option GoVal × Option GoError)
    (dec : Option GoTy → String → Except String GoVal) (r : Request) (detail : String)
    (hlen : j.fnTy.inTys.length = 3) (hm : isDataMethod r.method = true)
    (hdec : dec j.inTy r.body = Except.error detail) :
    serveAfterNegotiation hl hg j fn dec r =
      { resp := { contentType := some "application/json", status := some 400
                  body := "\x7b\"error\":\"could not deserialize json request body\"\x7d\n" }
        bodyClosed := false, decodeTried := true, handlerCalled := false, logged := none } := by
  have : ("\x7b\"error\":" ++ encodeJString "could not deserialize json request body" ++ "\x7d\n")
      = "\x7b\"error\":\"could not deserialize json request body\"\x7d\n" := by decide
  simp [serveAfterNegotiation, hlen, hm, hdec, writeError, encodeErrObj, writeHeader,
    writeBody, jsonInitResp, this]

theorem invoke_error (hl hg : Bool) (w : RespState)
    (fn : Request → Option GoVal → Option GoVal × Option GoError)
    (r : Request) (p : Option GoVal) (closed tried : Bool) (e : GoError)
    (hfn : (fn r p).2 = some e) :
    invokeAndRespond hl hg w fn r p closed tried =
      { resp := (writeError w hl hg e).resp, bodyClosed := closed, decodeTried := tried
        handlerCalled := true, logged := (writeError w hl hg e).logged } := by
  simp [invokeAndRespond, hfn]

theorem writeError_cloaked_eq (w : RespState) (hl hg : Bool) (msg : String) :
    writeError w hl hg (GoError.cloaked msg) =
      { resp := writeBody (writeHeader w 500) fallbackBody
        logged := logit hl hg ("internal error: " ++ msg) } := rfl

theorem writeError_reported_eq (w : RespState) (hl hg : Bool)
    (status : Nat) (msg : String) (reason : Option GoVal) (bodyStr : String)
    (henc : encodeErrObj msg reason = some bodyStr) :
    writeError w hl hg (GoError.jsonErr status msg reason) =
      { resp := writeBody (if status ≠ 0 then writeHeader w status else w) bodyStr
        logged := none } := by
  simp [writeError, henc]

theorem writeHeader_contentType (w : RespState) (c : Nat) :
    (writeHeader w c).contentType = w.contentType := by
  unfold writeHeader
  cases w.status <;> rfl

theorem writeError_contentType (w : RespState) (hl hg : Bool) (e : GoError) :
    (writeError w hl hg e).resp.contentType = w.contentType := by
  cases e with
  | jsonErr status msg reason =>
    cases henc : encodeErrObj msg reason with
    | none => simp [writeError, henc, writeBody, writeHeader_contentType]
    | some s =>
      by_cases hs : status ≠ 0 <;> simp [writeError, henc, hs, writeBody, writeHeader_contentType]
  | cloaked msg => simp [writeError, writeBody, writeHeader_contentType]

theorem invoke_contentType (hl hg : Bool) (w : RespState)
    (fn : Request → Option GoVal → Option GoVal × Option GoError)
    (r : Request) (p : Option GoVal) (closed tried : Bool) :
    (invokeAndRespond hl hg w fn r p closed tried).resp.contentType = w.contentType := by
  unfold invokeAndRespond
  cases h2 : (fn r p).2 with
  | some e => simp [h2, writeError_contentType]
  | none =>
    cases h1 : (fn r p).1 with
    | none => simp [h2, h1]
    | some v =>
      cases he : encodeGoVal v with
      | some s => simp [h2, h1, he, writeBody]
      | none => simp [h2, h1, he, writeError_contentType]

theorem serveAfterNegotiation_contentType (hl hg : Bool) (j : JSONHandlerT)
    (fn : Request → Option GoVal → Option GoVal × Option GoError)
    (dec : Option GoTy → String → Except String GoVal) (r : Request) :
    (serveAfterNegotiation hl hg j fn dec r).resp.contentType = some "application/json" := by
  by_cases hcond : ((j.fnTy.inTys.length == 3) && !(isDataMethod r.method)
      || !(j.fnTy.inTys.length == 3) && isDataMethod r.method) = true
  · simp [serveAfterNegotiation, hcond, writeError_contentType, jsonInitResp]
  · by_cases hdes : (j.fnTy.inTys.length == 3) = true
    · cases hdec : dec j.inTy r.body with
      | error d =>
        simp only [serveAfterNegotiation, hcond, hdes, hdec]
        split <;> simp [writeError_contentType, jsonInitResp]
      | ok v =>
        simp only [serveAfterNegotiation, hcond, hdes, hdec]
        split <;> simp [writeError_contentType, invoke_contentType, jsonInitResp]
    · simp only [serveAfterNegotiation, hcond, hdes]
      split <;> simp [writeError_contentType, invoke_contentType, jsonInitResp]

theorem serve_invoke_exists (hl hg : Bool) (j : JSONHandlerT)
    (fn : Request → Option GoVal → Option GoVal × Option GoError)
    (dec : Option GoTy → String → Except String GoVal) (r : Request)
    (hacc : strContains r.accept "*/*" = true ∨ strContains r.accept "application/json" = true)
    (hroute : (j.fnTy.inTys.length = 2 ∧ isDataMethod r.method = false)
            ∨ (j.fnTy.inTys.length = 3 ∧ isDataMethod r.method = true
               ∧ ∃ v, dec j.inTy r.body = Except.ok v)) :
    ∃ p c t, ServeHTTP hl hg j fn dec r = invokeAndRespond hl hg jsonInitResp fn r p c t := by
  rcases hroute with ⟨hlen, hm⟩ | ⟨hlen, hm, v, hdec⟩
  · exact ⟨none, false, false, by
      rw [serve_negotiation_pass hl hg j fn dec r hacc,
        serve_route_nonpayload hl hg j fn dec r hlen hm]⟩
  · exact ⟨some v, true, true, by
      rw [serve_negotiation_pass hl hg j fn dec r hacc,
        serve_route_payload hl hg j fn dec r v hlen hm hdec]⟩

/-- The descriptor `Handler(testHandler1)` builds: a 3-parameter handler
with payload type `*testType`. -/
def handlerJ3 : JSONHandlerT := { fnTy := tyHandler3, inTy := some tyPtrTestType }

/-- The descriptor of a 2-parameter handler (no payload). -/
def handlerJ2 : JSONHandlerT := { fnTy := tyHandler2, inTy := none }

/-- A wrapped function returning `(nil, nil)`. -/
def fnNone : Request → Option GoVal → Option GoVal × Option GoError := fun _ _ => (none, none)

/-- A decoder oracle that always fails, with a detail message. -/
def decAlwaysFail : Option GoTy → String → Except String GoVal :=
  fun _ _ => Except.error "unexpected EOF"

/-- A decoder oracle that always succeeds with JSON null. -/
def decAlwaysNull : Option GoTy → String → Except String GoVal :=
  fun _ _ => Except.ok GoVal.jnull

/-- A GET request with Accept "*/*" and empty body. -/
def reqGetStar : Request := { method := "GET", accept := "*/*", body := "" }

/-- A POST request with Accept "*/*" and a malformed body. -/
def reqPostStar : Request := { method := "POST", accept := "*/*", body := "not json" }

/-- A HEAD request with Accept "*/*". -/
def reqHeadStar : Request := { method := "HEAD", accept := "*/*", body := "" }

/-- A GET request whose Accept header is "application/jsonp". -/
def reqJsonp : Request := { method := "GET", accept := "application/jsonp", body := "" }

/-- A GET request whose Accept header is "application/xml". -/
def reqXml : Request := { method := "GET", accept := "application/xml", body := "" }

/-- Claim C2: when content negotiation passes, a payload-accepting (3-input)
descriptor paired with a non-data method, or a payload-free (2-input)
descriptor paired with a data method, yields status 400 with the JSON body
whose error message is "invalid http method to this endpoint: <METHOD>",
and this happens before any body decoding or handler invocation. -/
theorem c2_method_mismatch_response (hl hg : Bool) (j : JSONHandlerT)
    (fn : Request → Option GoVal → Option GoVal × Option GoError)
    (dec : Option GoTy → String → Except String GoVal) (r : Request)
    (hacc : strContains r.accept "*/*" = true ∨ strContains r.accept "application/json" = true)
    (hpair : (j.fnTy.inTys.length = 3 ∧ isDataMethod r.method = false)
           ∨ (j.fnTy.inTys.length = 2 ∧ isDataMethod r.method = true)) :
    (ServeHTTP hl hg j fn dec r).resp.status = some 400
    ∧ (ServeHTTP hl hg j fn dec r).resp.body =
        "\x7b\"error\":" ++
          encodeJString ("invalid http method to this endpoint: " ++ r.method) ++ "\x7d\n"
    ∧ (ServeHTTP hl hg j fn dec r).decodeTried = false
    ∧ (ServeHTTP hl hg j fn dec r).handlerCalled = false := by
  have hpair2 : (j.fnTy.inTys.length = 3 ∧ isDataMethod r.method = false)
      ∨ (j.fnTy.inTys.length ≠ 3 ∧ isDataMethod r.method = true) := by
    rcases hpair with h | ⟨h1, h2⟩
    · exact Or.inl h
    · exact Or.inr ⟨by omega, h2⟩
  rw [serve_negotiation_pass hl hg j fn dec r hacc,
    serve_mismatch hl hg j fn dec r hpair2]
  exact ⟨rfl, rfl, rfl, rfl⟩

/-- Witness for C2: the 3-parameter handler descriptor with a GET request
and Accept "*/*" yields the 400 method-mismatch response without decoding
or invoking. -/
theorem c2_witness :
    (ServeHTTP false false handlerJ3 fnNone decAlwaysFail reqGetStar).resp.status = some 400
    ∧ (ServeHTTP false false handlerJ3 fnNone decAlwaysFail reqGetStar).resp.body =
        "\x7b\"error\":" ++
          encodeJString ("invalid http method to this endpoint: " ++ reqGetStar.method) ++ "\x7d\n"
    ∧ (ServeHTTP false false handlerJ3 fnNone decAlwaysFail reqGetStar).decodeTried = false
    ∧ (ServeHTTP false false handlerJ3 fnNone decAlwaysFail reqGetStar).handlerCalled = false :=
  c2_method_mismatch_response false false handlerJ3 fnNone decAlwaysFail reqGetStar
    (Or.inl (by decide)) (Or.inl ⟨by decide, by decide⟩)

/-- Claim C6: a request whose Accept header contains neither "*/*" nor
"application/json" receives the plain-text 400 rejection body and nothing
else happens (no decode, no invocation, no log); every request that passes
this check has its response content type set to application/json. -/
theorem c6_content_negotiation (hl hg : Bool) (j : JSONHandlerT)
    (fn : Request → Option GoVal → Option GoVal × Option GoError)
    (dec : Option GoTy → String → Except String GoVal) (r : Request) :
    (strContains r.accept "*/*" = false → strContains r.accept "application/json" = false →
      ServeHTTP hl hg j fn dec r =
        { resp := { contentType := some "text/plain", status := some 400
                    body := "this endpoint only responds to json-accepting clients" }
          bodyClosed := false, decodeTried := false, handlerCalled := false, logged := none })
    ∧ ((strContains r.accept "*/*" = true ∨ strContains r.accept "application/json" = true) →
      (ServeHTTP hl hg j fn dec r).resp.contentType = some "application/json") := by
  constructor
  · intro h1 h2
    simp [ServeHTTP, h1, h2, writeBody, writeHeader, setContentType]
  · intro hacc
    rw [serve_negotiation_pass hl hg j fn dec r hacc]
    exact serveAfterNegotiation_contentType hl hg j fn dec r

/-- Witness for C6: Accept "application/xml" is rejected with the exact
plain-text 400 response. -/
theorem c6_witness :
    ServeHTTP false false handlerJ2 fnNone decAlwaysFail reqXml =
      { resp := { contentType := some "text/plain", status := some 400
                  body := "this endpoint only responds to json-accepting clients" }
        bodyClosed := false, decodeTried := false, handlerCalled := false, logged := none } :=
  (c6_content_negotiation false false handlerJ2 fnNone decAlwaysFail reqXml).1
    (by decide) (by decide)

/-- Claim C10: content negotiation is a raw substring test: any Accept
header containing "*/*" or "application/json" anywhere (in particular
"application/jsonp") passes negotiation, and an absent (empty) Accept
header is rejected with the plain-text 400 response. -/
theorem c10_substring_negotiation (hl hg : Bool) (j : JSONHandlerT)
    (fn : Request → Option GoVal → Option GoVal × Option GoError)
    (dec : Option GoTy → String → Except String GoVal) :
    (∀ r : Request,
      strContains r.accept "*/*" = true ∨ strContains r.accept "application/json" = true →
      (ServeHTTP hl hg j fn dec r).resp.contentType = some "application/json")
    ∧ strContains "application/jsonp" "application/json" = true
    ∧ (∀ r : Request, r.accept = "" →
      ServeHTTP hl hg j fn dec r =
        { resp := { contentType := some "text/plain", status := some 400
                    body := "this endpoint only responds to json-accepting clients" }
          bodyClosed := false, decodeTried := false, handlerCalled := false, logged := none }) := by
  refine ⟨?_, by decide, ?_⟩
  · intro r hacc
    rw [serve_negotiation_pass hl hg j fn dec r hacc]
    exact serveAfterNegotiation_contentType hl hg j fn dec r
  · intro r hempty
    have h1 : strContains r.accept "*/*" = false := by rw [hempty]; decide
    have h2 : strContains r.accept "application/json" = false := by rw [hempty]; decide
    simp [ServeHTTP, h1, h2, writeBody, writeHeader, setContentType]

/-- Witness for C10: Accept "application/jsonp" passes negotiation (the
response content type becomes application/json). -/
theorem c10_witness :
    (ServeHTTP false false handlerJ2 fnNone decAlwaysFail reqJsonp).resp.contentType =
      some "application/json" :=
  (c10_substring_negotiation false false handlerJ2 fnNone decAlwaysFail).1 reqJsonp
    (Or.inr (by decide))

/-- Claim C5: for a payload-accepting (3-input) descriptor, when method and
Accept validation pass but the body does not decode, the dispatcher answers
status 400 with the fixed message "could not deserialize json request body";
the handler is not invoked, and the response is identical for any two
undecodable bodies and any decoder error details, so no decoder detail can
appear in it. -/
theorem c5_decode_failure_response (hl hg : Bool) (j : JSONHandlerT)
    (fn : Request → Option GoVal → Option GoVal × Option GoError)
    (dec : Option GoTy → String → Except String GoVal) (r : Request) (detail : String)
    (hacc : strContains r.accept "*/*" = true ∨ strContains r.accept "application/json" = true)
    (hlen : j.fnTy.inTys.length = 3) (hm : isDataMethod r.method = true)
    (hdec : dec j.inTy r.body = Except.error detail) :
    (ServeHTTP hl hg j fn dec r).resp.status = some 400
    ∧ (ServeHTTP hl hg j fn dec r).resp.body =
        "\x7b\"error\":\"could not deserialize json request body\"\x7d\n"
    ∧ (ServeHTTP hl hg j fn dec r).handlerCalled = false
    ∧ (∀ (dec2 : Option GoTy → String → Except String GoVal) (r2 : Request) (detail2 : String),
        r2.method = r.method → r2.accept = r.accept →
        dec2 j.inTy r2.body = Except.error detail2 →
        (ServeHTTP hl hg j fn dec2 r2).resp = (ServeHTTP hl hg j fn dec r).resp) := by
  rw [serve_negotiation_pass hl hg j fn dec r hacc,
    serve_decode_fail hl hg j fn dec r detail hlen hm hdec]
  refine ⟨rfl, rfl, rfl, ?_⟩
  intro dec2 r2 detail2 hmeq haeq hdec2
  have hacc2 : strContains r2.accept "*/*" = true
      ∨ strContains r2.accept "application/json" = true := by rw [haeq]; exact hacc
  rw [serve_negotiation_pass hl hg j fn dec2 r2 hacc2,
    serve_decode_fail hl hg j fn dec2 r2 detail2 hlen (by rw [hmeq]; exact hm) hdec2]

/-- Witness for C5: the 3-parameter descriptor, a POST with Accept "*/*"
and an undecodable body gets the fixed 400 deserialization response. -/
theorem c5_witness :
    (ServeHTTP false false handlerJ3 fnNone decAlwaysFail reqPostStar).resp.status = some 400
    ∧ (ServeHTTP false false handlerJ3 fnNone decAlwaysFail reqPostStar).resp.body =
        "\x7b\"error\":\"could not deserialize json request body\"\x7d\n"
    ∧ (ServeHTTP false false handlerJ3 fnNone decAlwaysFail reqPostStar).handlerCalled = false :=
  have h := c5_decode_failure_response false false handlerJ3 fnNone decAlwaysFail reqPostStar
    "unexpected EOF" (Or.inl (by decide)) (by decide) (by decide) rfl
  ⟨h.1, h.2.1, h.2.2.1⟩

/-- Claim C9: the data-method classifier is an exact, case-sensitive
comparison against "GET" and "DELETE": every other method string counts as
a data method, so a 2-parameter descriptor receiving "HEAD", "OPTIONS" or
lowercase "get" is answered with the 400 method-mismatch response and the
handler is never invoked. -/
theorem c9_method_classifier (hl hg : Bool) (j : JSONHandlerT)
    (fn : Request → Option GoVal → Option GoVal × Option GoError)
    (dec : Option GoTy → String → Except String GoVal) (r : Request)
    (hacc : strContains r.accept "*/*" = true ∨ strContains r.accept "application/json" = true)
    (hlen : j.fnTy.inTys.length = 2)
    (hm : r.method = "HEAD" ∨ r.method = "OPTIONS" ∨ r.method = "get") :
    (ServeHTTP hl hg j fn dec r).resp.status = some 400
    ∧ (ServeHTTP hl hg j fn dec r).resp.body =
        "\x7b\"error\":" ++
          encodeJString ("invalid http method to this endpoint: " ++ r.method) ++ "\x7d\n"
    ∧ (ServeHTTP hl hg j fn dec r).handlerCalled = false
    ∧ (∀ m : String, m ≠ "GET" → m ≠ "DELETE" → isDataMethod m = true)
    ∧ isDataMethod "GET" = false ∧ isDataMethod "DELETE" = false := by
  have hdata : isDataMethod r.method = true := by
    rcases hm with h | h | h <;> rw [h] <;> decide
  have hpair2 : (j.fnTy.inTys.length = 3 ∧ isDataMethod r.method = false)
      ∨ (j.fnTy.inTys.length ≠ 3 ∧ isDataMethod r.method = true) :=
    Or.inr ⟨by omega, hdata⟩
  rw [serve_negotiation_pass hl hg j fn dec r hacc,
    serve_mismatch hl hg j fn dec r hpair2]
  refine ⟨rfl, rfl, rfl, ?_, by decide, by decide⟩
  intro m h1 h2
  simp [isDataMethod, bne_iff_ne]
  exact ⟨h1, h2⟩

/-- Witness for C9: a HEAD request with Accept "*/*" against the
2-parameter descriptor gets the 400 method-mismatch response. -/
theorem c9_witness :
    (ServeHTTP false false handlerJ2 fnNone decAlwaysFail reqHeadStar).resp.status = some 400
    ∧ (ServeHTTP false false handlerJ2 fnNone decAlwaysFail reqHeadStar).handlerCalled = false :=
  have h := c9_method_classifier false false handlerJ2 fnNone decAlwaysFail reqHeadStar
    (Or.inl (by decide)) (by decide) (Or.inl rfl)
  ⟨h.1, h.2.2.1⟩

theorem writeHeader_body (w : RespState) (c : Nat) : (writeHeader w c).body = w.body := by
  unfold writeHeader
  cases w.status <;> rfl

/-- A wrapped function returning the cloaked error of `errHandler1`. -/
def fnCloaked : Request → Option GoVal → Option GoVal × Option GoError :=
  fun _ _ => (none, some (GoError.cloaked "error occurred"))

/-- A wrapped function returning a reported `Err` whose `Reason` cannot be
serialized by `encoding/json` (for example a channel value). -/
def fnBadReason : Request → Option GoVal → Option GoVal × Option GoError :=
  fun _ _ => (none, some (GoError.jsonErr 0 "hi" (some GoVal.unencodable)))

/-- A wrapped function returning the reported error of `errHandler4`. -/
def fnReported : Request → Option GoVal → Option GoVal × Option GoError :=
  fun _ _ => (none, some (GoError.jsonErr 400 "ugly request"
    (some (GoVal.jobj [("problem", GoVal.jstr "occurred")]))))

/-- Claim C3: a handler-returned error that is not the `Err` type yields
status 500 with exactly the fixed fallback body; the response state is
independent of the error's message (so the message is never revealed), and
the message is logged to the descriptor sink if set, else the global sink
if set, else dropped. -/
theorem c3_cloaked_error_response (hl hg : Bool) (j : JSONHandlerT)
    (fn : Request → Option GoVal → Option GoVal × Option GoError)
    (dec : Option GoTy → String → Except String GoVal) (r : Request) (msg : String)
    (hacc : strContains r.accept "*/*" = true ∨ strContains r.accept "application/json" = true)
    (hroute : (j.fnTy.inTys.length = 2 ∧ isDataMethod r.method = false)
            ∨ (j.fnTy.inTys.length = 3 ∧ isDataMethod r.method = true
               ∧ ∃ v, dec j.inTy r.body = Except.ok v))
    (hfn : ∀ p, (fn r p).2 = some (GoError.cloaked msg)) :
    (ServeHTTP hl hg j fn dec r).resp.status = some 500
    ∧ (ServeHTTP hl hg j fn dec r).resp.body = fallbackBody
    ∧ (ServeHTTP hl hg j fn dec r).logged =
        (if hl = true then some (SinkId.descriptor, "internal error: " ++ msg)
         else if hg = true then some (SinkId.global, "internal error: " ++ msg)
         else none)
    ∧ (∀ (fn2 : Request → Option GoVal → Option GoVal × Option GoError) (msg2 : String),
        (∀ p, (fn2 r p).2 = some (GoError.cloaked msg2)) →
        (ServeHTTP hl hg j fn2 dec r).resp = (ServeHTTP hl hg j fn dec r).resp) := by
  obtain ⟨p, c, t, heq⟩ := serve_invoke_exists hl hg j fn dec r hacc hroute
  rw [heq, invoke_error hl hg jsonInitResp fn r p c t _ (hfn p), writeError_cloaked_eq]
  refine ⟨rfl, rfl, rfl, ?_⟩
  intro fn2 msg2 hfn2
  obtain ⟨p2, c2, t2, heq2⟩ := serve_invoke_exists hl hg j fn2 dec r hacc hroute
  rw [heq2, invoke_error hl hg jsonInitResp fn2 r p2 c2 t2 _ (hfn2 p2), writeError_cloaked_eq]

/-- Witness for C3: `errHandler1` via GET with Accept "*/*" and a
descriptor-level logging sink: 500, fallback body, message logged to the
descriptor sink. -/
theorem c3_witness :
    (ServeHTTP true false handlerJ2 fnCloaked decAlwaysFail reqGetStar).resp.status = some 500
    ∧ (ServeHTTP true false handlerJ2 fnCloaked decAlwaysFail reqGetStar).resp.body = fallbackBody
    ∧ (ServeHTTP true false handlerJ2 fnCloaked decAlwaysFail reqGetStar).logged =
        (if true = true then some (SinkId.descriptor, "internal error: " ++ "error occurred")
         else if false = true then some (SinkId.global, "internal error: " ++ "error occurred")
         else none) :=
  have h := c3_cloaked_error_response true false handlerJ2 fnCloaked decAlwaysFail reqGetStar
    "error occurred" (Or.inl (by decide)) (Or.inl ⟨by decide, by decide⟩) (fun _ => rfl)
  ⟨h.1, h.2.1, h.2.2.1⟩

/-- Counterexample to claim C4 as stated: an `Err` with unset status (0)
whose `Reason` is unserializable. The claim predicts response status 200
with a body carrying the message "hi"; the code writes status 500 and the
fixed fallback body instead. -/
theorem c4_claim_counterexample :
    (ServeHTTP false false handlerJ2 fnBadReason decAlwaysFail reqGetStar).resp.effStatus = 500
    ∧ (ServeHTTP false false handlerJ2 fnBadReason decAlwaysFail reqGetStar).resp.effStatus ≠ 200
    ∧ (ServeHTTP false false handlerJ2 fnBadReason decAlwaysFail reqGetStar).resp.body = fallbackBody
    ∧ strContains
        (ServeHTTP false false handlerJ2 fnBadReason decAlwaysFail reqGetStar).resp.body
        "hi" = false := by
  exact ⟨rfl, by decide, rfl, by decide⟩

/-- Claim C4 (amended): for every reported `Err` whose error object
serializes, the response status is the explicit status when non-zero and
200 when unset, and the body is the JSON object with the "error" key,
extended with a "reason" key exactly when a reason is present; when the
error object does not serialize, the code instead answers 500 with the
fixed fallback body (see the counterexample). -/
theorem c4_reported_error_response (hl hg : Bool) (j : JSONHandlerT)
    (fn : Request → Option GoVal → Option GoVal × Option GoError)
    (dec : Option GoTy → String → Except String GoVal) (r : Request)
    (status : Nat) (msg : String) (reason : Option GoVal) (bodyJson : String)
    (hacc : strContains r.accept "*/*" = true ∨ strContains r.accept "application/json" = true)
    (hroute : (j.fnTy.inTys.length = 2 ∧ isDataMethod r.method = false)
            ∨ (j.fnTy.inTys.length = 3 ∧ isDataMethod r.method = true
               ∧ ∃ v, dec j.inTy r.body = Except.ok v))
    (hfn : ∀ p, (fn r p).2 = some (GoError.jsonErr status msg reason))
    (henc : encodeErrObj msg reason = some bodyJson) :
    (ServeHTTP hl hg j fn dec r).resp.effStatus = (if status ≠ 0 then status else 200)
    ∧ (ServeHTTP hl hg j fn dec r).resp.body = bodyJson
    ∧ (reason = none → bodyJson = "\x7b\"error\":" ++ encodeJString msg ++ "\x7d\n")
    ∧ (∀ (rv : GoVal) (rs : String), reason = some rv → encodeGoVal rv = some rs →
        bodyJson = "\x7b\"error\":" ++ encodeJString msg ++ ",\"reason\":" ++ rs ++ "\x7d\n") := by
  obtain ⟨p, c, t, heq⟩ := serve_invoke_exists hl hg j fn dec r hacc hroute
  rw [heq, invoke_error hl hg jsonInitResp fn r p c t _ (hfn p),
    writeError_reported_eq jsonInitResp hl hg status msg reason bodyJson henc]
  refine ⟨?_, ?_, ?_, ?_⟩
  · by_cases hs : status ≠ 0 <;>
      simp [hs, RespState.effStatus, writeBody, writeHeader, jsonInitResp]
  · by_cases hs : status ≠ 0 <;> simp [hs, writeBody, writeHeader_body, jsonInitResp]
  · intro hnone
    subst hnone
    simp [encodeErrObj] at henc
    exact henc.symm
  · intro rv rs hsome hrs
    subst hsome
    simp [encodeErrObj, hrs] at henc
    exact henc.symm

/-- Witness for C4 (amended): `errHandler4` via GET with Accept "*/*":
status 400 and the body with both "error" and "reason" keys. -/
theorem c4_witness :
    (ServeHTTP false false handlerJ2 fnReported decAlwaysFail reqGetStar).resp.effStatus = 400
    ∧ (ServeHTTP false false handlerJ2 fnReported decAlwaysFail reqGetStar).resp.body =
        "\x7b\"error\":\"ugly request\",\"reason\":\x7b\"problem\":\"occurred\"\x7d\x7d\n" :=
  have h := c4_reported_error_response false false handlerJ2 fnReported decAlwaysFail reqGetStar
    400 "ugly request" (some (GoVal.jobj [("problem", GoVal.jstr "occurred")]))
    "\x7b\"error\":\"ugly request\",\"reason\":\x7b\"problem\":\"occurred\"\x7d\x7d\n"
    (Or.inl (by decide)) (Or.inl ⟨by decide, by decide⟩) (fun _ => rfl) (by decide)
  ⟨h.1.trans (by decide), h.2.1⟩

/-- Claim C7 assessed on the code: on the decode-failure path `ServeHTTP`
returns right after writing the 400 response, before `r.Body.Close()`, so
the body is NOT closed there; it is closed on the decode-success path. -/
theorem c7_body_close_paths :
    ((ServeHTTP false false handlerJ3 fnNone decAlwaysFail reqPostStar).decodeTried = true
      ∧ (ServeHTTP false false handlerJ3 fnNone decAlwaysFail reqPostStar).resp.status = some 400
      ∧ (ServeHTTP false false handlerJ3 fnNone decAlwaysFail reqPostStar).bodyClosed = false)
    ∧ (ServeHTTP false false handlerJ3 fnNone decAlwaysNull reqPostStar).bodyClosed = true := by
  exact ⟨⟨rfl, rfl, rfl⟩, rfl⟩

/-- A 3-parameter function type violating both the parameter-1 requirement
(`int` instead of `http.ResponseWriter`) and the parameter-3 shape
requirement (a struct by value). -/
def tyBadBoth : FnTy :=
  { kind := TKind.func, inTys := [tyInt, tyInt, tyStructTestType], outTys := [tyEmptyIface, tyError] }

/-- Counterexample to claim C8 as stated: `tyBadBoth` violates both the
parameter-1 compatibility requirement and the parameter-3 shape
requirement, yet the surfacing diagnostic is the payload-shape one, not the
parameter-type one: the code checks parameter 3 first. -/
theorem c8_param_order_counterexample :
    tyBadBoth.inTys.length = 3
    ∧ (tyBadBoth.inTys.headD tyInt).tstr ≠ "http.ResponseWriter"
    ∧ isPayloadKind tyStructTestType.kind = false
    ∧ Handler tyBadBoth = Except.error "Third argument must be an *object, map, or slice"
    ∧ ("Third argument must be an *object, map, or slice" : String) ≠
        "First argument must be an http.ResponseWriter" := by
  exact ⟨rfl, by decide, by decide, rfl, by decide⟩

/-- Claim C8 (amended): during registration of a 3-parameter callable the
structural-kind check on parameter 3 is performed before the compatibility
checks on parameters 1 and 2, so whenever parameter 3 has an invalid shape
the payload-shape diagnostic surfaces, regardless of parameters 1 and 2. -/
theorem c8_payload_check_first (p1 p2 p3 : GoTy) (outs : List GoTy)
    (h : isPayloadKind p3.kind = false) :
    Handler { kind := TKind.func, inTys := [p1, p2, p3], outTys := outs } =
      Except.error "Third argument must be an *object, map, or slice" := by
  simp [Handler, h]

/-- Witness for C8 (amended) at a concrete invalid third parameter. -/
theorem c8_witness :
    Handler { kind := TKind.func, inTys := [tyInt, tyInt, tyStructTestType], outTys := [] } =
      Except.error "Third argument must be an *object, map, or slice" :=
  c8_payload_check_first tyInt tyInt tyStructTestType [] (by decide)

end Jsonware
